import Mathlib

/-!
Verification development for the BOM animated radar scraper
(`bom_animated_radar_scraper.py`).

The pipeline is shallowly embedded:
* pixels are RGBA quadruples with rational channels normalised to [0,1]
  (the Python code works with 8-bit channels 0..255; the normalisation is
  a fixed linear rescaling and the claims only involve fully opaque /
  fully transparent alpha and exact colour equality);
* images are a width, a height and a total pixel function;
* HTTP fetching and font rendering are external collaborators and appear
  as function parameters (`fetch : String → Option Img`, `FontMetrics`);
* file writes are recorded in outcome structures rather than performed.
-/

namespace BomRadar

/-- An RGBA colour. Channels are rationals normalised to `[0,1]`
(`255 ↦ 1`). -/
structure RGBA where
  r : ℚ
  g : ℚ
  b : ℚ
  a : ℚ
deriving DecidableEq, Repr

/-- The fully transparent colour, PIL's default fill for `Image.new('RGBA', size)`. -/
def RGBA.clear : RGBA := ⟨0, 0, 0, 0⟩

/-- Opaque black `(0, 0, 0, 255)`. -/
def RGBA.opaqueBlack : RGBA := ⟨0, 0, 0, 1⟩

/-- Opaque white `(255, 255, 255, 255)`. -/
def RGBA.opaqueWhite : RGBA := ⟨1, 1, 1, 1⟩

/-- Opaque red `(255, 0, 0, 255)`. -/
def RGBA.opaqueRed : RGBA := ⟨1, 0, 0, 1⟩

/-- Porter–Duff "over" blending of a source pixel onto a destination pixel,
the per-pixel operation of PIL's `Image.alpha_composite`. -/
def RGBA.over (src dst : RGBA) : RGBA :=
  let outA := src.a + dst.a * (1 - src.a)
  if outA = 0 then RGBA.clear
  else ⟨(src.r * src.a + dst.r * dst.a * (1 - src.a)) / outA,
        (src.g * src.a + dst.g * dst.a * (1 - src.a)) / outA,
        (src.b * src.a + dst.b * dst.a * (1 - src.a)) / outA,
        outA⟩

/-- An in-memory bitmap: dimensions plus a total pixel function
(pixels outside `width × height` are never consulted by the modelled
operations' observable behaviour). -/
structure Img where
  width : Nat
  height : Nat
  pixel : Nat → Nat → RGBA

/-- `Image.new(mode, (w, h), colour)`. -/
def Img.new (w h : Nat) (c : RGBA) : Img := ⟨w, h, fun _ _ => c⟩

/-- `dst.paste(src, (ox, oy))` without a mask: source pixels (alpha
included) replace destination pixels inside the pasted rectangle. -/
def Img.paste (dst src : Img) (ox oy : Nat) : Img :=
  { dst with pixel := fun x y =>
      if ox ≤ x ∧ x < ox + src.width ∧ oy ≤ y ∧ y < oy + src.height then
        src.pixel (x - ox) (y - oy)
      else dst.pixel x y }

/-- `dst.alpha_composite(src)`: "over" blending at every coordinate covered
by the source. -/
def Img.alphaComposite (dst src : Img) : Img :=
  { dst with pixel := fun x y =>
      if x < src.width ∧ y < src.height then
        RGBA.over (src.pixel x y) (dst.pixel x y)
      else dst.pixel x y }

/-- `img.crop((l, t, r, b))`: the `(r−l) × (b−t)` sub-rectangle. -/
def Img.crop (img : Img) (l t r b : Nat) : Img :=
  ⟨r - l, b - t, fun x y => img.pixel (l + x) (t + y)⟩

/-- `img.convert("RGB")`: the alpha channel is dropped. -/
def Img.toRGB (img : Img) : Img :=
  { img with pixel := fun x y =>
      let p := img.pixel x y
      ⟨p.r, p.g, p.b, 1⟩ }

/-- `img.quantize(colors=256, method=Image.MAXCOVERAGE, dither=Image.NONE)`.
The palette computation is internal to PIL; what the pipeline (and every
claim) relies on is that quantization is deterministic and preserves the
image dimensions, so the per-pixel palette assignment is modelled as the
identity map on the already-computed pixels. -/
def Img.quantize256 (img : Img) : Img :=
  ⟨img.width, img.height, fun x y => img.pixel x y⟩

/-! ## Source Locator (`get_image_urls`) -/

/-- The dictionary returned by `get_image_urls`: the four static layer
URLs and the ordered radar frame URLs. -/
structure UrlSet where
  background : String
  topography : String
  locations : String
  range : String
  frames : List String
deriving DecidableEq, Repr

/-- Scanner for the first match of the regex `IDR\d+` (the product code):
find the leftmost occurrence of `IDR` followed by at least one digit and
take the maximal digit run. -/
def pidFrom : List Char → Option String
  | [] => none
  | c :: rest =>
    if c = 'I' then
      match rest with
      | 'D' :: 'R' :: d :: rest2 =>
        if d.isDigit then
          some ⟨'I' :: 'D' :: 'R' :: d :: rest2.takeWhile Char.isDigit⟩
        else pidFrom rest
      | _ => pidFrom rest
    else pidFrom rest

/-- `re.search(r'(IDR\d+)', page_url)` followed by `.group(1)`; `none`
models the `AttributeError` path (caught by the enclosing handler). -/
def extractProductId (s : String) : Option String := pidFrom s.data

/-- Python regex `\s`. -/
def isWs (c : Char) : Bool :=
  c = ' ' || c = '\t' || c = '\n' || c = '\r' || c = '\x0B' || c = '\x0C'

/-- Drop an exact literal from the front of a character list, or fail. -/
def dropLit : List Char → List Char → Option (List Char)
  | [], cs => some cs
  | _ :: _, [] => none
  | p :: ps, c :: cs => if c = p then dropLit ps cs else none

/-- Try to match the regex `theImageNames\[\d+\]\s*=\s*"([^"]+)"` at the
start of the list; on success return the captured group and the remaining
characters after the whole match. -/
def matchFrameAt (cs : List Char) : Option (String × List Char) :=
  match dropLit "theImageNames[".data cs with
  | none => none
  | some cs1 =>
    if cs1.takeWhile Char.isDigit = [] then none
    else
      match cs1.dropWhile Char.isDigit with
      | ']' :: cs2 =>
        match cs2.dropWhile isWs with
        | '=' :: cs4 =>
          match cs4.dropWhile isWs with
          | '\"' :: cs6 =>
            let cap := cs6.takeWhile (fun c => c ≠ '\"')
            if cap = [] then none
            else
              match cs6.dropWhile (fun c => c ≠ '\"') with
              | '\"' :: cs7 => some (⟨cap⟩, cs7)
              | _ => none
          | _ => none
        | _ => none
      | _ => none

/-- Left-to-right non-overlapping scan, the semantics of `re.findall`.
The fuel is the length of the input: every step either skips one
character or consumes a whole match (which is at least one character
long), so the fuel is never exhausted before the input is. -/
def findFramesGo : Nat → List Char → List String
  | 0, _ => []
  | _ + 1, [] => []
  | fuel + 1, c :: rest =>
    match matchFrameAt (c :: rest) with
    | some (s, r) => s :: findFramesGo fuel r
    | none => findFramesGo fuel rest

/-- `re.findall(r'theImageNames\[\d+\]\s*=\s*"([^"]+)"', content)`. -/
def findFrames (content : String) : List String :=
  findFramesGo content.length content.data

/-- `get_image_urls(page_url, base_url)`.  The page body (`response.text`)
is passed in as `content`: the HTTP fetch is an external collaborator, and
a failed fetch is the `none` result of the caller-side composition. -/
def get_image_urls (page_url content base_url : String) : Option UrlSet :=
  match extractProductId page_url with
  | none => none
  | some product_id =>
    let frame_matches := findFrames content
    if frame_matches = [] then none
    else some {
      background := base_url ++ "/products/radar_transparencies/" ++ product_id ++ ".background.png"
      topography := base_url ++ "/products/radar_transparencies/" ++ product_id ++ ".topography.png"
      locations := base_url ++ "/products/radar_transparencies/" ++ product_id ++ ".locations.png"
      range := base_url ++ "/products/radar_transparencies/" ++ product_id ++ ".range.png"
      frames := frame_matches.map (fun u => base_url ++ u) }

/-! ## Frame Compositor and Loop Encoder (`create_animated_radar`) -/

/-- The per-frame composition of `create_animated_radar` (lines 97–114):
fresh transparent RGBA canvas of the background's size, paste the
background, then alpha-composite topography, radar frame, locations and
range overlay in that fixed order. -/
def compositeFrame (background : Img) (topography locations range_overlay : Option Img)
    (radar_layer : Img) : Img :=
  let composite := Img.new background.width background.height RGBA.clear
  let composite := composite.paste background 0 0
  let composite :=
    match topography with
    | some t => composite.alphaComposite t
    | none => composite
  let composite := composite.alphaComposite radar_layer
  let composite :=
    match locations with
    | some l => composite.alphaComposite l
    | none => composite
  let composite :=
    match range_overlay with
    | some r => composite.alphaComposite r
    | none => composite
  composite

/-- `re.search(r'\.(\d{12})\.png$', url)` and its captured group: the URL
ends with a literal dot, exactly twelve digits, and `.png`. -/
def extractTimestamp (url : String) : Option String :=
  match url.data.reverse with
  | 'g' :: 'n' :: 'p' :: '.' :: rest =>
    let ds := rest.take 12
    if ds.length = 12 ∧ ds.all Char.isDigit then
      match rest.drop 12 with
      | '.' :: _ => some ⟨ds.reverse⟩
      | _ => none
    else none
  | _ => none

/-- Observable outcome of `create_animated_radar`: the returned boolean,
whether the animated GIF file was written, and the timestamp written to
the sidecar JSON file (`none` when no sidecar was written). -/
structure CreateOutcome where
  success : Bool
  gifWritten : Bool
  sidecarWritten : Option String
deriving DecidableEq, Repr

/-- `create_animated_radar`, with the Source Locator result and the image
fetcher supplied as inputs.  A frame whose fetch fails is skipped; if the
background fetch fails a 512×512 opaque black placeholder is used; the
GIF is written exactly when at least one composited frame survives, and
the sidecar is written exactly when the 12-digit timestamp pattern
matches the last URL of the frame list. -/
def create_animated_radar (urls : Option UrlSet) (fetch : String → Option Img) :
    CreateOutcome :=
  match urls with
  | none => ⟨false, false, none⟩
  | some u =>
    if u.frames.isEmpty then ⟨false, false, none⟩
    else
      let background := (fetch u.background).getD (Img.new 512 512 RGBA.opaqueBlack)
      let topography := fetch u.topography
      let locations := fetch u.locations
      let range_overlay := fetch u.range
      let frames := u.frames.filterMap fun frame_url =>
        (fetch frame_url).map fun radar_layer =>
          ((compositeFrame background topography locations range_overlay
              radar_layer).toRGB).quantize256
      if frames.isEmpty then ⟨false, false, none⟩
      else
        let last_frame_url := u.frames.getLast?.getD ""
        ⟨true, true, extractTimestamp last_frame_url⟩

/-- Written from the spec's words for claim C1, for comparison with the
code: the source URL of the last surviving (successfully fetched and
composited) frame. -/
def specLastSurvivingFrameUrl (u : UrlSet) (fetch : String → Option Img) :
    Option String :=
  (u.frames.filter fun f => (fetch f).isSome).getLast?

/-! ## Loop Stacker (`stack_animated_gifs`) -/

/-- Outcome of reading one loop's sidecar file `<path>.json`.  File
access, JSON parsing and `strptime` are external effects; what the
stacking code observes is one of these five cases.  A parsed timestamp is
carried as UTC seconds since an arbitrary fixed epoch (the sidecar's
`YYYYMMDDHHMM` value has minute precision, so real values are multiples
of 60; nothing below depends on that). -/
inductive Sidecar where
  /-- `os.path.exists` is false: no sidecar file. -/
  | missing : Sidecar
  /-- The file exists but opening or JSON-decoding raises (caught and
  logged as a warning). -/
  | unreadable : Sidecar
  /-- JSON parses but `data.get("timestamp")` is absent or falsy. -/
  | noTimestamp : Sidecar
  /-- A timestamp string is present but `strptime` raises (caught and
  logged as a warning). -/
  | badTimestamp : Sidecar
  /-- A successfully parsed UTC timestamp, in seconds. -/
  | ts : Int → Sidecar
deriving DecidableEq, Repr

/-- Whether the sidecar yielded a usable timestamp. -/
def Sidecar.isParsed : Sidecar → Bool
  | .ts _ => true
  | _ => false

/-- One opened input loop together with its sidecar-read outcome and the
`duration` field of its GIF info dictionary. -/
structure GifInput where
  frames : List Img
  sidecar : Sidecar
  duration : Option Nat

/-- The per-loop test of the staleness scan: a loop is stale-contributing
exactly when its sidecar parsed and `now − timestamp` exceeds 15 minutes
(900 seconds), strictly. -/
def staleFrom (now : Int) (s : Sidecar) : Bool :=
  match s with
  | .ts m => decide (900 < now - m)
  | _ => false

/-- The staleness scan (lines 160–179): `is_outdated` is set as soon as
any loop's parsed sidecar timestamp is strictly older than 15 minutes;
the early `break` does not change the resulting flag. -/
def checkOutdated (now : Int) (loops : List GifInput) : Bool :=
  loops.any fun l => staleFrom now l.sidecar

/-- What the stacker uses of the resolved font: the text bounding-box
width and height reported by `draw.textbbox` for the string
`"radar capture outdated"`, and the hard-edged 1-bit glyph mask the text
is rendered into.  Font resolution is an external collaborator. -/
structure FontMetrics where
  textW : Nat
  textH : Nat
  mask : Nat → Nat → Bool

/-- `draw.rectangle([l, t, r, b], fill, outline, width=1)`: both corner
coordinates are included; with an outline colour the 1-pixel border takes
the outline colour. -/
def Img.drawRect (img : Img) (l t r b : Int) (fill : RGBA) (outline : Option RGBA) : Img :=
  { img with pixel := fun x y =>
      if l ≤ (x : Int) ∧ (x : Int) ≤ r ∧ t ≤ (y : Int) ∧ (y : Int) ≤ b then
        match outline with
        | some oc =>
          if (x : Int) = l ∨ (x : Int) = r ∨ (y : Int) = t ∨ (y : Int) = b then oc
          else fill
        | none => fill
      else img.pixel x y }

/-- `draw.polygon(points, fill)` for a triangle: pixels inside the
triangle (half-plane sign test) are filled.  Pixel-exact rasterisation is
PIL-internal visual detail; the spec makes only badge presence and
dimension preservation a contract. -/
def Img.drawTriangle (img : Img) (p1 p2 p3 : Int × Int) (fill : RGBA) : Img :=
  { img with pixel := fun x y =>
      let cross := fun (u v : Int × Int) =>
        (v.1 - u.1) * ((y : Int) - u.2) - (v.2 - u.2) * ((x : Int) - u.1)
      let d1 := cross p1 p2
      let d2 := cross p2 p3
      let d3 := cross p3 p1
      if (0 ≤ d1 ∧ 0 ≤ d2 ∧ 0 ≤ d3) ∨ (d1 ≤ 0 ∧ d2 ≤ 0 ∧ d3 ≤ 0) then fill
      else img.pixel x y }

/-- `draw.line([(cx, y1), (cx, y2)], fill, width=3)`: a vertical segment
of width 3 centred on `cx`. -/
def Img.drawVLine3 (img : Img) (cx y1 y2 : Int) (c : RGBA) : Img :=
  { img with pixel := fun x y =>
      if cx - 1 ≤ (x : Int) ∧ (x : Int) ≤ cx + 1 ∧ y1 ≤ (y : Int) ∧ (y : Int) ≤ y2 then c
      else img.pixel x y }

/-- `draw.point((px, py), fill)`. -/
def Img.drawPoint (img : Img) (px py : Int) (c : RGBA) : Img :=
  { img with pixel := fun x y =>
      if (x : Int) = px ∧ (y : Int) = py then c
      else img.pixel x y }

/-- `img.paste(colour_img, (ox, oy), mask)`: the solid colour is pasted
through the 1-bit mask of size `w × h`. -/
def Img.pasteMasked (img : Img) (c : RGBA) (ox oy : Int) (w h : Nat)
    (mask : Nat → Nat → Bool) : Img :=
  { img with pixel := fun x y =>
      if ox ≤ (x : Int) ∧ (x : Int) < ox + (w : Int) ∧ oy ≤ (y : Int) ∧ (y : Int) < oy + (h : Int)
          ∧ mask ((x : Int) - ox).toNat ((y : Int) - oy).toNat then c
      else img.pixel x y }

/-- The warning badge (lines 248–320): white rounded box with red 1px
outline, red triangle with a white bar and dot approximating an
exclamation mark, then the text `"radar capture outdated"` pasted in
solid red through a hard-edged glyph mask.  Coordinates follow the code
with `symbol_size = 18`, `padding = 3`, `box_padding = 4`, `y_pos = 3`;
Python's floor division `//` is `Int.fdiv`. -/
def drawBadge (fm : FontMetrics) (total_width : Nat) (img : Img) : Img :=
  let total_content_width : Int := 18 + 3 + (fm.textW : Int)
  let total_content_height : Int := max 18 (fm.textH : Int)
  let start_x : Int := Int.fdiv ((total_width : Int) - total_content_width) 2
  let y_pos : Int := 3
  let img := img.drawRect (start_x - 4) (y_pos - 4 + 2)
      (start_x + total_content_width + 4) (y_pos + total_content_height + 2)
      RGBA.opaqueWhite (some RGBA.opaqueRed)
  let img := img.drawTriangle (start_x + 9, y_pos) (start_x, y_pos + 18)
      (start_x + 18, y_pos + 18) RGBA.opaqueRed
  let excl_x := start_x + 9
  let img := img.drawVLine3 excl_x (y_pos + 5) (y_pos + 12) RGBA.opaqueWhite
  let img := img.drawPoint excl_x (y_pos + 15) RGBA.opaqueWhite
  let img := img.drawRect (excl_x - 1) (y_pos + 15) (excl_x + 1) (y_pos + 17)
      RGBA.opaqueWhite none
  img.pasteMasked RGBA.opaqueRed (start_x + 18 + 3) y_pos fm.textW fm.textH fm.mask

/-- The 16-pixel header band cropped from the first loop's frame. -/
def headerBand (first : Img) : Img := first.crop 0 0 first.width 16

/-- `img.crop((0, header_height, img.width, img.height))`: the frame body
below the 16-pixel header. -/
def cropBody (img : Img) : Img := img.crop 0 16 img.width img.height

/-- The paste loop of lines 233–242: paste each cropped body centred
horizontally at the running `current_y`, advancing by the body height
plus a 1-pixel divider after every body except the last.  Returns the
painted canvas and the final `current_y`. -/
def pasteBodies (total_width : Nat) : Img → List Img → Nat → Img × Nat
  | canvas, [], y => (canvas, y)
  | canvas, img :: rest, y =>
    let canvas2 := canvas.paste img ((total_width - img.width) / 2) y
    match rest with
    | [] => (canvas2, y + img.height)
    | r :: rs => pasteBodies total_width canvas2 (r :: rs) (y + img.height + 1)

/-- The cropped bodies of all input frames, in input order. -/
def croppedList (first : Img) (rest : List Img) : List Img :=
  (first :: rest).map cropBody

/-- `total_width = max(img.width for img in cropped_frames)`. -/
def stackWidth (first : Img) (rest : List Img) : Nat :=
  ((croppedList first rest).map Img.width).foldr max 0

/-- `total_height = sum(heights) + num_dividers * 1 + header_height`. -/
def stackHeight (first : Img) (rest : List Img) : Nat :=
  ((croppedList first rest).map Img.height).sum
    + ((croppedList first rest).length - 1) * 1 + 16

/-- One stacked frame before the badge and quantization: black canvas of
the computed size, bodies pasted top-to-bottom with dividers, the first
loop's header pasted left-aligned at the bottom. -/
def composeStack (first : Img) (rest : List Img) : Img :=
  let header := headerBand first
  let pb := pasteBodies (stackWidth first rest)
      (Img.new (stackWidth first rest) (stackHeight first rest) RGBA.opaqueBlack)
      (croppedList first rest) 0
  pb.1.paste header 0 pb.2

/-- One full stacked frame (lines 208–324): compose, draw the warning
badge when the stack is flagged outdated, convert to RGB and quantize. -/
def stackFrame (fm : FontMetrics) (is_outdated : Bool) (first : Img) (rest : List Img) : Img :=
  let composed := composeStack first rest
  let withBadge :=
    if is_outdated then drawBadge fm (stackWidth first rest) composed else composed
  (withBadge.toRGB).quantize256

/-- Observable outcome of a successful `stack_animated_gifs`: the output
frames and the frame duration written to the output GIF. -/
structure StackOutcome where
  frames : List Img
  duration : Nat

/-- `min(g.n_frames for g in gifs)` over the nonempty input list. -/
def minFrameCount (g : GifInput) (gs : List GifInput) : Nat :=
  (gs.map fun x => x.frames.length).foldr Nat.min g.frames.length

/-- Placeholder for an out-of-range `seek`; never reached when every
index stays below every input's frame count. -/
def blankImg : Img := Img.new 0 0 RGBA.clear

/-- `stack_animated_gifs`, with the opened loops (frames, sidecar-read
outcome, duration) supplied as inputs and `none` modelling the `False`
return.  An empty input list returns failure; otherwise the staleness
flag is computed once, `n_frames` is the minimum frame count, frame `i`
of every loop is stacked for each `i < n_frames`, and the output is
written with the first loop's duration (default 500) when at least one
frame was produced. -/
def stack_animated_gifs (now : Int) (fm : FontMetrics) (loops : List GifInput) :
    Option StackOutcome :=
  match loops with
  | [] => none
  | g :: gs =>
    let is_outdated := checkOutdated now (g :: gs)
    let n_frames := minFrameCount g gs
    let frames := (List.range n_frames).map fun i =>
      stackFrame fm is_outdated (g.frames.getD i blankImg)
        (gs.map fun x => x.frames.getD i blankImg)
    if frames.isEmpty then none
    else some ⟨frames, g.duration.getD 500⟩

/-- `panelTop l i`: the `current_y` at which panel `i`'s cropped body is
pasted — the heights of the earlier bodies plus one divider pixel per
earlier panel. -/
def panelTop (l : List Img) (i : Nat) : Nat :=
  ((l.take i).map fun g => g.height - 16).sum + i

/-- The height of the stacked body region (everything above the relocated
header): all cropped heights plus the dividers. -/
def bodyHeight (l : List Img) : Nat :=
  (l.map fun g => g.height - 16).sum + (l.length - 1)

/-! ## Helper lemmas -/

lemma staleFrom_eq_true (now : Int) (s : Sidecar) :
    staleFrom now s = true ↔ ∃ m : Int, s = Sidecar.ts m ∧ 900 < now - m := by
  cases s <;> simp [staleFrom]

lemma staleFrom_not_parsed (now : Int) (s : Sidecar) (h : s.isParsed = false) :
    staleFrom now s = false := by
  cases s <;> simp_all [Sidecar.isParsed, staleFrom]

/-! ## Claims -/

/-- C10: given an empty list of loop file paths, the stacking operation
returns failure without writing any output file and without raising. -/
theorem claim_C10 (now : Int) (fm : FontMetrics) :
    stack_animated_gifs now fm [] = none := rfl

/-- C2: the stack is flagged stale iff some input loop has a parsable
sidecar timestamp strictly older than 15 minutes (900 seconds) relative
to now; an age of exactly 14 minutes (840 s) yields stale = false and an
age of exactly 16 minutes (960 s) yields stale = true. -/
theorem claim_C2 (now : Int) (loops : List GifInput) :
    (checkOutdated now loops = true ↔
      ∃ l ∈ loops, ∃ m : Int, l.sidecar = Sidecar.ts m ∧ 900 < now - m)
    ∧ (∀ (fr : List Img) (d : Option Nat),
        checkOutdated now [⟨fr, Sidecar.ts (now - 840), d⟩] = false)
    ∧ (∀ (fr : List Img) (d : Option Nat),
        checkOutdated now [⟨fr, Sidecar.ts (now - 960), d⟩] = true) := by
  refine ⟨?_, ?_, ?_⟩
  · rw [checkOutdated, List.any_eq_true]
    constructor
    · rintro ⟨l, hl, hp⟩
      exact ⟨l, hl, (staleFrom_eq_true now l.sidecar).mp hp⟩
    · rintro ⟨l, hl, hp⟩
      exact ⟨l, hl, (staleFrom_eq_true now l.sidecar).mpr hp⟩
  · intro fr d
    simp [checkOutdated, staleFrom]
  · intro fr d
    simp [checkOutdated, staleFrom]

/-- C6: a missing or unparsable sidecar never raises out of the stacking
operation (the staleness scan is a total function of the sidecar-read
outcomes); staleness is determined by the loops whose sidecars parse, and
a loop without a usable sidecar contributes stale = false. -/
theorem claim_C6 (now : Int) :
    (∀ loops : List GifInput,
      checkOutdated now loops
        = checkOutdated now (loops.filter fun l => l.sidecar.isParsed))
    ∧ (∀ (l : GifInput) (rest : List GifInput),
        checkOutdated now (l :: rest)
          = (staleFrom now l.sidecar || checkOutdated now rest))
    ∧ staleFrom now Sidecar.missing = false
    ∧ staleFrom now Sidecar.unreadable = false
    ∧ staleFrom now Sidecar.noTimestamp = false
    ∧ staleFrom now Sidecar.badTimestamp = false := by
  refine ⟨?_, ?_, rfl, rfl, rfl, rfl⟩
  · intro loops
    induction loops with
    | nil => rfl
    | cons l ls ih =>
      cases hp : l.sidecar.isParsed with
      | true =>
        simp only [checkOutdated, List.filter_cons, hp, if_true, List.any_cons] at ih ⊢
        rw [ih]
      | false =>
        simp only [checkOutdated, List.filter_cons, hp, Bool.false_eq_true,
          if_false, List.any_cons] at ih ⊢
        rw [staleFrom_not_parsed now l.sidecar hp, Bool.false_or, ih]
  · intro l rest
    rw [checkOutdated, List.any_cons]
    rfl

/-- C5: whenever the composited frame sequence ends up empty — no URL
set, an empty frame-URL list, or every frame fetch failing — the
create-loop operation reports failure and writes neither the animated
GIF nor the sidecar file. -/
theorem claim_C5 (urls : Option UrlSet) (fetch : String → Option Img)
    (h : ∀ u, urls = some u → ∀ f ∈ u.frames, fetch f = none) :
    create_animated_radar urls fetch = ⟨false, false, none⟩ := by
  cases urls with
  | none => rfl
  | some u =>
    rw [create_animated_radar]
    cases hfe : u.frames.isEmpty with
    | true => simp
    | false =>
      simp only [Bool.false_eq_true, if_false]
      have hfm : (u.frames.filterMap fun frame_url =>
          (fetch frame_url).map fun radar_layer =>
            ((compositeFrame ((fetch u.background).getD (Img.new 512 512 RGBA.opaqueBlack))
                (fetch u.topography) (fetch u.locations) (fetch u.range)
                radar_layer).toRGB).quantize256) = [] := by
        rw [List.filterMap_eq_nil_iff]
        intro a ha
        rw [h u rfl a ha]
        rfl
      rw [hfm]
      simp

/-- Witness for C5 at a concrete input: one frame URL whose fetch fails. -/
theorem claim_C5_witness :
    create_animated_radar
        (some ⟨"bg", "topo", "loc", "rng", ["http://x/IDR1.T.202501010000.png"]⟩)
        (fun _ => none)
      = ⟨false, false, none⟩ :=
  claim_C5 _ _ (by intro u hu f hf; rfl)

/-- A concrete 1×1 opaque image used by the C1 scenarios. -/
def imgC1 : Img := Img.new 1 1 RGBA.opaqueBlack

/-- A concrete URL set for C1: two frame URLs carrying distinct 12-digit
timestamps. -/
def urlsC1 : UrlSet :=
  { background := "bg", topography := "topo", locations := "loc", range := "rng"
    frames := ["http://x/IDR714.T.202501010000.png", "http://x/IDR714.T.202501010010.png"] }

/-- A fetcher for which the first frame survives and the second frame's
fetch fails (static layers also fail, so the black placeholder is used). -/
def fetchC1 : String → Option Img :=
  fun s => if s = "http://x/IDR714.T.202501010000.png" then some imgC1 else none

/-- C1 counterexample: with two frame URLs of which only the FIRST is
successfully fetched, the operation succeeds, the last surviving frame's
URL carries the token `202501010000`, yet the code writes the token
`202501010010` taken from the last URL of the list (a frame that never
survived). -/
theorem claim_C1_counterexample :
    (create_animated_radar (some urlsC1) fetchC1).success = true
    ∧ specLastSurvivingFrameUrl urlsC1 fetchC1 = some "http://x/IDR714.T.202501010000.png"
    ∧ extractTimestamp "http://x/IDR714.T.202501010000.png" = some "202501010000"
    ∧ (create_animated_radar (some urlsC1) fetchC1).sidecarWritten = some "202501010010"
    ∧ (some "202501010010" : Option String) ≠ some "202501010000" := by
  refine ⟨rfl, by decide, by decide, rfl, by decide⟩

/-- C1 amended: for every run in which at least one frame survives, the
timestamp written to the sidecar is the 12-digit token immediately
preceding `.png` in the LAST URL of the frame list (whether or not that
frame survived), and no sidecar is written when that URL does not match
the pattern. -/
theorem claim_C1_amended (u : UrlSet) (fetch : String → Option Img)
    (hne : u.frames ≠ [])
    (hsurv : ∃ f ∈ u.frames, (fetch f).isSome) :
    create_animated_radar (some u) fetch
      = ⟨true, true, extractTimestamp (u.frames.getLast hne)⟩ := by
  rw [create_animated_radar]
  have hfe : u.frames.isEmpty = false := List.isEmpty_eq_false.mpr hne
  rw [hfe]
  simp only [Bool.false_eq_true, if_false]
  obtain ⟨f, hf, hs⟩ := hsurv
  obtain ⟨img, hi⟩ := Option.isSome_iff_exists.mp hs
  have hmem : (((compositeFrame ((fetch u.background).getD (Img.new 512 512 RGBA.opaqueBlack))
      (fetch u.topography) (fetch u.locations) (fetch u.range) img).toRGB).quantize256)
      ∈ (u.frames.filterMap fun frame_url =>
        (fetch frame_url).map fun radar_layer =>
          ((compositeFrame ((fetch u.background).getD (Img.new 512 512 RGBA.opaqueBlack))
              (fetch u.topography) (fetch u.locations) (fetch u.range)
              radar_layer).toRGB).quantize256) := by
    rw [List.mem_filterMap]
    exact ⟨f, hf, by rw [hi]; rfl⟩
  have hfm : (u.frames.filterMap fun frame_url =>
      (fetch frame_url).map fun radar_layer =>
        ((compositeFrame ((fetch u.background).getD (Img.new 512 512 RGBA.opaqueBlack))
            (fetch u.topography) (fetch u.locations) (fetch u.range)
            radar_layer).toRGB).quantize256).isEmpty = false := by
    rw [List.isEmpty_eq_false]
    intro hnil
    rw [hnil] at hmem
    exact (List.not_mem_nil _) hmem
  rw [hfm]
  simp only [Bool.false_eq_true, if_false]
  rw [List.getLast?_eq_getLast u.frames hne]
  rfl

/-- Witness for C1 amended: every fetch succeeds, so the operation
succeeds and the sidecar carries the last URL's token. -/
theorem claim_C1_amended_witness :
    urlsC1.frames ≠ []
    ∧ create_animated_radar (some urlsC1) (fun _ => some imgC1)
        = ⟨true, true, some "202501010010"⟩ := by
  have hne : urlsC1.frames ≠ [] := by decide
  refine ⟨hne, ?_⟩
  rw [claim_C1_amended urlsC1 (fun _ => some imgC1) hne
    ⟨"http://x/IDR714.T.202501010000.png", by decide, rfl⟩]
  rfl

/-- C9: the four derived static-layer URLs are a pure deterministic
function of the matched product code and the base URL — two runs (over
possibly different pages and page bodies) that match the same product
code and use the same base URL derive the same four URLs, namely the
fixed path templates instantiated at the code. -/
theorem claim_C9 (p1 p2 c1 c2 base pid : String) (u1 u2 : UrlSet)
    (h1 : extractProductId p1 = some pid) (h2 : extractProductId p2 = some pid)
    (hg1 : get_image_urls p1 c1 base = some u1)
    (hg2 : get_image_urls p2 c2 base = some u2) :
    u1.background = u2.background ∧ u1.topography = u2.topography
    ∧ u1.locations = u2.locations ∧ u1.range = u2.range
    ∧ u1.background = base ++ "/products/radar_transparencies/" ++ pid ++ ".background.png"
    ∧ u1.topography = base ++ "/products/radar_transparencies/" ++ pid ++ ".topography.png"
    ∧ u1.locations = base ++ "/products/radar_transparencies/" ++ pid ++ ".locations.png"
    ∧ u1.range = base ++ "/products/radar_transparencies/" ++ pid ++ ".range.png" := by
  simp only [get_image_urls, h1] at hg1
  simp only [get_image_urls, h2] at hg2
  by_cases hf1 : findFrames c1 = []
  · rw [if_pos hf1] at hg1
    exact absurd hg1 (by simp)
  · rw [if_neg hf1] at hg1
    by_cases hf2 : findFrames c2 = []
    · rw [if_pos hf2] at hg2
      exact absurd hg2 (by simp)
    · rw [if_neg hf2] at hg2
      have e1 := Option.some.inj hg1
      have e2 := Option.some.inj hg2
      rw [← e1, ← e2]
      exact ⟨rfl, rfl, rfl, rfl, rfl, rfl, rfl, rfl⟩

/-- Witness for C9: two different pages and page bodies matching the same
product code `IDR023`. -/
theorem claim_C9_witness :
    extractProductId "http://b/IDR023.loop.shtml" = some "IDR023"
    ∧ extractProductId "zzIDR023x" = some "IDR023"
    ∧ get_image_urls "http://b/IDR023.loop.shtml" "theImageNames[0] = \"/a.png\"" "base"
        = some ⟨"base/products/radar_transparencies/IDR023.background.png",
                "base/products/radar_transparencies/IDR023.topography.png",
                "base/products/radar_transparencies/IDR023.locations.png",
                "base/products/radar_transparencies/IDR023.range.png",
                ["base/a.png"]⟩
    ∧ get_image_urls "zzIDR023x" "x theImageNames[7]=\"/b.png\" y" "base"
        = some ⟨"base/products/radar_transparencies/IDR023.background.png",
                "base/products/radar_transparencies/IDR023.topography.png",
                "base/products/radar_transparencies/IDR023.locations.png",
                "base/products/radar_transparencies/IDR023.range.png",
                ["base/b.png"]⟩
    ∧ ("base/products/radar_transparencies/IDR023.background.png" : String)
        = "base/products/radar_transparencies/IDR023.background.png" := by
  have h1 : extractProductId "http://b/IDR023.loop.shtml" = some "IDR023" := by decide
  have h2 : extractProductId "zzIDR023x" = some "IDR023" := by decide
  have hg1 : get_image_urls "http://b/IDR023.loop.shtml" "theImageNames[0] = \"/a.png\"" "base"
      = some ⟨"base/products/radar_transparencies/IDR023.background.png",
              "base/products/radar_transparencies/IDR023.topography.png",
              "base/products/radar_transparencies/IDR023.locations.png",
              "base/products/radar_transparencies/IDR023.range.png",
              ["base/a.png"]⟩ := by decide
  have hg2 : get_image_urls "zzIDR023x" "x theImageNames[7]=\"/b.png\" y" "base"
      = some ⟨"base/products/radar_transparencies/IDR023.background.png",
              "base/products/radar_transparencies/IDR023.topography.png",
              "base/products/radar_transparencies/IDR023.locations.png",
              "base/products/radar_transparencies/IDR023.range.png",
              ["base/b.png"]⟩ := by decide
  exact ⟨h1, h2, hg1, hg2, (claim_C9 _ _ _ _ _ _ _ _ h1 h2 hg1 hg2).1⟩

lemma RGBA.over_opaque (src dst : RGBA) (h : src.a = 1) :
    RGBA.over src dst = ⟨src.r, src.g, src.b, 1⟩ := by
  simp [RGBA.over, h]

lemma RGBA.over_transparent (src dst : RGBA) (h : src.a = 0) (hd : dst.a = 1) :
    RGBA.over src dst = dst := by
  cases dst
  simp_all [RGBA.over]

lemma Img.alphaComposite_pixel_in (dst src : Img) (x y : Nat)
    (hx : x < src.width) (hy : y < src.height) :
    (dst.alphaComposite src).pixel x y = RGBA.over (src.pixel x y) (dst.pixel x y) := by
  simp only [Img.alphaComposite]
  rw [if_pos ⟨hx, hy⟩]

/-- Opaque black background, for the C8 scenarios. -/
def bgC8 : Img := Img.new 1 1 RGBA.opaqueBlack

/-- Fully opaque blue radar frame. -/
def radarC8 : Img := Img.new 1 1 ⟨0, 0, 1, 1⟩

/-- Fully opaque red locations layer. -/
def locC8 : Img := Img.new 1 1 ⟨1, 0, 0, 1⟩

/-- Fully transparent range overlay. -/
def rngC8 : Img := Img.new 1 1 ⟨0, 0, 0, 0⟩

/-- Fully transparent radar frame, for part two of the C8 witness. -/
def radarClearC8 : Img := Img.new 1 1 ⟨0, 0, 0, 0⟩

/-- C8 counterexample: the locations layer is composited AFTER the radar
frame, so at a pixel where the radar frame is fully opaque (blue) but the
locations layer is also opaque (red), the pre-quantization output is the
locations colour, not the radar colour as the claim states. -/
theorem claim_C8_counterexample :
    (radarC8.pixel 0 0).a = 1
    ∧ (compositeFrame bgC8 none (some locC8) none radarC8).pixel 0 0 = ⟨1, 0, 0, 1⟩
    ∧ radarC8.pixel 0 0 = ⟨0, 0, 1, 1⟩
    ∧ (⟨1, 0, 0, 1⟩ : RGBA) ≠ ⟨0, 0, 1, 1⟩ := by
  refine ⟨rfl, ?_, rfl, by norm_num [RGBA.mk.injEq]⟩
  simp only [compositeFrame]
  rw [Img.alphaComposite_pixel_in _ _ 0 0 Nat.one_pos Nat.one_pos]
  rw [RGBA.over_opaque _ _ rfl]
  rfl

/-- C8 amended: with the fixed order background → topography → radar →
locations → range and "over" blending, at a pixel where the radar frame
is fully opaque AND the later layers (locations, range) are fully
transparent there, the pre-quantization output is the radar colour; at a
pixel where the radar frame is fully transparent, the locations layer is
opaque and the range layer transparent, the output is the locations
colour. -/
theorem claim_C8_amended (background : Img) (topography : Option Img)
    (radar_layer locations range_overlay : Img) (x y : Nat)
    (hrx : x < radar_layer.width) (hry : y < radar_layer.height)
    (hlx : x < locations.width) (hly : y < locations.height)
    (hgx : x < range_overlay.width) (hgy : y < range_overlay.height)
    (hga : (range_overlay.pixel x y).a = 0) :
    (((radar_layer.pixel x y).a = 1 ∧ (locations.pixel x y).a = 0) →
      (compositeFrame background topography (some locations) (some range_overlay)
          radar_layer).pixel x y
        = ⟨(radar_layer.pixel x y).r, (radar_layer.pixel x y).g,
           (radar_layer.pixel x y).b, 1⟩)
    ∧ (((radar_layer.pixel x y).a = 0 ∧ (locations.pixel x y).a = 1) →
      (compositeFrame background topography (some locations) (some range_overlay)
          radar_layer).pixel x y
        = ⟨(locations.pixel x y).r, (locations.pixel x y).g,
           (locations.pixel x y).b, 1⟩) := by
  constructor
  · rintro ⟨hra, hla⟩
    simp only [compositeFrame]
    rw [Img.alphaComposite_pixel_in _ _ x y hgx hgy]
    rw [Img.alphaComposite_pixel_in _ _ x y hlx hly]
    rw [Img.alphaComposite_pixel_in _ _ x y hrx hry]
    rw [RGBA.over_opaque _ _ hra]
    rw [RGBA.over_transparent _ _ hla rfl]
    rw [RGBA.over_transparent _ _ hga rfl]
  · rintro ⟨hra, hla⟩
    simp only [compositeFrame]
    rw [Img.alphaComposite_pixel_in _ _ x y hgx hgy]
    rw [Img.alphaComposite_pixel_in _ _ x y hlx hly]
    rw [RGBA.over_opaque _ _ hla]
    rw [RGBA.over_transparent _ _ hga rfl]

/-- Witness for C8 amended at concrete 1×1 layers, both parts: an opaque
blue radar pixel with transparent later layers yields blue; a transparent
radar pixel under an opaque red locations pixel yields red. -/
theorem claim_C8_amended_witness :
    ((compositeFrame bgC8 none (some rngC8) (some rngC8) radarC8).pixel 0 0
        = ⟨0, 0, 1, 1⟩)
    ∧ ((compositeFrame bgC8 none (some locC8) (some rngC8) radarClearC8).pixel 0 0
        = ⟨1, 0, 0, 1⟩) := by
  constructor
  · exact (claim_C8_amended bgC8 none radarC8 rngC8 rngC8 0 0
      Nat.one_pos Nat.one_pos Nat.one_pos Nat.one_pos Nat.one_pos Nat.one_pos
      rfl).1 ⟨rfl, rfl⟩
  · exact (claim_C8_amended bgC8 none radarClearC8 locC8 rngC8 0 0
      Nat.one_pos Nat.one_pos Nat.one_pos Nat.one_pos Nat.one_pos Nat.one_pos
      rfl).2 ⟨rfl, rfl⟩

lemma Img.paste_pixel_below (dst src : Img) (ox oy x y : Nat) (h : y < oy) :
    (dst.paste src ox oy).pixel x y = dst.pixel x y := by
  simp only [Img.paste]
  rw [if_neg]
  rintro ⟨_, _, h3, _⟩
  omega

lemma Img.paste_pixel_in (dst src : Img) (ox oy dx dy : Nat)
    (h1 : dx < src.width) (h2 : dy < src.height) :
    (dst.paste src ox oy).pixel (ox + dx) (oy + dy) = src.pixel dx dy := by
  simp only [Img.paste]
  rw [if_pos ⟨by omega, by omega, by omega, by omega⟩]
  have e1 : ox + dx - ox = dx := by omega
  have e2 : oy + dy - oy = dy := by omega
  rw [e1, e2]

lemma pasteBodies_fst_width (tw : Nat) (l : List Img) :
    ∀ (c : Img) (y : Nat), ((pasteBodies tw c l y).1).width = c.width := by
  induction l with
  | nil => intro c y; rfl
  | cons a rest ih =>
    intro c y
    cases rest with
    | nil => rfl
    | cons r rs => exact ih _ _

lemma pasteBodies_fst_height (tw : Nat) (l : List Img) :
    ∀ (c : Img) (y : Nat), ((pasteBodies tw c l y).1).height = c.height := by
  induction l with
  | nil => intro c y; rfl
  | cons a rest ih =>
    intro c y
    cases rest with
    | nil => rfl
    | cons r rs => exact ih _ _

lemma pasteBodies_pixel_below (tw : Nat) (l : List Img) :
    ∀ (c : Img) (y0 x y : Nat), y < y0 →
      ((pasteBodies tw c l y0).1).pixel x y = c.pixel x y := by
  induction l with
  | nil => intro c y0 x y h; rfl
  | cons a rest ih =>
    intro c y0 x y h
    cases rest with
    | nil => exact Img.paste_pixel_below c a _ y0 x y h
    | cons r rs =>
      rw [pasteBodies]
      rw [ih _ (y0 + a.height + 1) x y (by omega)]
      exact Img.paste_pixel_below c a _ y0 x y h

lemma pasteBodies_snd_eq (tw : Nat) :
    ∀ (l : List Img) (a c : Img) (y0 : Nat),
      (pasteBodies tw c (a :: l) y0).2
        = y0 + ((a :: l).map Img.height).sum + l.length := by
  intro l
  induction l with
  | nil => intro a c y0; simp [pasteBodies]
  | cons r rs ih =>
    intro a c y0
    rw [pasteBodies]
    rw [ih r _ (y0 + a.height + 1)]
    simp only [List.map_cons, List.sum_cons, List.length_cons]
    omega

lemma pasteBodies_panel (tw : Nat) :
    ∀ (l : List Img) (c : Img) (y0 i : Nat) (hi : i < l.length) (dx dy : Nat),
      dx < (l.get ⟨i, hi⟩).width → dy < (l.get ⟨i, hi⟩).height →
      ((pasteBodies tw c l y0).1).pixel ((tw - (l.get ⟨i, hi⟩).width) / 2 + dx)
          (y0 + ((l.take i).map Img.height).sum + i + dy)
        = (l.get ⟨i, hi⟩).pixel dx dy := by
  intro l
  induction l with
  | nil =>
    intro c y0 i hi
    exact absurd hi (by simp)
  | cons a rest ih =>
    intro c y0 i hi dx dy hdx hdy
    cases i with
    | zero =>
      simp only [List.get, List.take, List.map_nil, List.sum_nil, Nat.add_zero] at hdx hdy ⊢
      cases rest with
      | nil =>
        show (c.paste a ((tw - a.width) / 2) y0).pixel _ (y0 + dy) = a.pixel dx dy
        exact Img.paste_pixel_in c a _ y0 dx dy hdx hdy
      | cons r rs =>
        rw [pasteBodies]
        rw [pasteBodies_pixel_below tw (r :: rs) _ (y0 + a.height + 1) _ (y0 + dy)
          (by omega)]
        exact Img.paste_pixel_in c a _ y0 dx dy hdx hdy
    | succ j =>
      cases rest with
      | nil => exact absurd hi (by simp)
      | cons r rs =>
        rw [pasteBodies]
        have hj : j < (r :: rs).length := by
          simpa [Nat.succ_lt_succ_iff] using hi
        have hy : y0 + (((a :: r :: rs).take (j + 1)).map Img.height).sum + (j + 1) + dy
            = (y0 + a.height + 1) + (((r :: rs).take j).map Img.height).sum + j + dy := by
          simp only [List.take_succ_cons, List.map_cons, List.sum_cons]
          omega
        rw [hy]
        exact ih _ (y0 + a.height + 1) j hj dx dy hdx hdy

lemma croppedList_map_height (first : Img) (rest : List Img) :
    (croppedList first rest).map Img.height
      = (first :: rest).map fun g => g.height - 16 := by
  rw [croppedList, List.map_map]
  rfl

lemma croppedList_map_width (first : Img) (rest : List Img) :
    (croppedList first rest).map Img.width = (first :: rest).map Img.width := by
  rw [croppedList, List.map_map]
  rfl

lemma drawBadge_width (fm : FontMetrics) (w : Nat) (img : Img) :
    (drawBadge fm w img).width = img.width := rfl

lemma drawBadge_height (fm : FontMetrics) (w : Nat) (img : Img) :
    (drawBadge fm w img).height = img.height := rfl

lemma composeStack_width (first : Img) (rest : List Img) :
    (composeStack first rest).width = stackWidth first rest := by
  simp only [composeStack]
  exact pasteBodies_fst_width _ _ _ _

lemma composeStack_height (first : Img) (rest : List Img) :
    (composeStack first rest).height = stackHeight first rest := by
  simp only [composeStack]
  exact pasteBodies_fst_height _ _ _ _

lemma stackFrame_width (fm : FontMetrics) (b : Bool) (first : Img) (rest : List Img) :
    (stackFrame fm b first rest).width = stackWidth first rest := by
  cases b with
  | false => exact composeStack_width first rest
  | true =>
    show (drawBadge fm (stackWidth first rest) (composeStack first rest)).width = _
    rw [drawBadge_width]
    exact composeStack_width first rest

lemma stackFrame_height (fm : FontMetrics) (b : Bool) (first : Img) (rest : List Img) :
    (stackFrame fm b first rest).height = stackHeight first rest := by
  cases b with
  | false => exact composeStack_height first rest
  | true =>
    show (drawBadge fm (stackWidth first rest) (composeStack first rest)).height = _
    rw [drawBadge_height]
    exact composeStack_height first rest

/-- C4: the warning badge is drawn on a stacked frame exactly when the
staleness flag is set (the stale branch applies `drawBadge`, the fresh
branch does not), and drawing the badge never changes the canvas
dimensions computed before badge rendering. -/
theorem claim_C4 (fm : FontMetrics) (first : Img) (rest : List Img) :
    stackFrame fm true first rest
      = ((drawBadge fm (stackWidth first rest) (composeStack first rest)).toRGB).quantize256
    ∧ stackFrame fm false first rest = ((composeStack first rest).toRGB).quantize256
    ∧ (∀ (w : Nat) (img : Img),
        (drawBadge fm w img).width = img.width ∧ (drawBadge fm w img).height = img.height)
    ∧ (∀ b : Bool,
        (stackFrame fm b first rest).width = stackWidth first rest
        ∧ (stackFrame fm b first rest).height = stackHeight first rest) := by
  refine ⟨rfl, rfl, fun w img => ⟨rfl, rfl⟩, fun b => ⟨?_, ?_⟩⟩
  · exact stackFrame_width fm b first rest
  · exact stackFrame_height fm b first rest

lemma Img.paste_pixel_in0 (dst src : Img) (oy dx dy : Nat)
    (h1 : dx < src.width) (h2 : dy < src.height) :
    (dst.paste src 0 oy).pixel dx (oy + dy) = src.pixel dx dy := by
  have h := Img.paste_pixel_in dst src 0 oy dx dy h1 h2
  rwa [Nat.zero_add] at h

lemma cropBody_pixel (g : Img) (dx dy : Nat) :
    (cropBody g).pixel dx dy = g.pixel dx (16 + dy) := by
  simp [cropBody, Img.crop]

lemma headerBand_pixel (g : Img) (dx dy : Nat) :
    (headerBand g).pixel dx dy = g.pixel dx dy := by
  simp [headerBand, Img.crop]

lemma composeStack_snd (first : Img) (rest : List Img) :
    (pasteBodies (stackWidth first rest)
      (Img.new (stackWidth first rest) (stackHeight first rest) RGBA.opaqueBlack)
      (croppedList first rest) 0).2 = bodyHeight (first :: rest) := by
  rw [croppedList, List.map_cons, pasteBodies_snd_eq, ← List.map_cons, List.map_map,
    bodyHeight]
  have hfun : Img.height ∘ cropBody = fun g => g.height - 16 := by
    funext g
    rfl
  rw [hfun]
  simp

/-- C3: every stacked output frame is `max Wᵢ` wide and
`Σ (Hᵢ − 16) + (N − 1) + 16` tall, independent of the staleness flag;
narrower panels are pasted horizontally centred at their computed row,
and the header band sits at the very bottom, left-aligned. -/
theorem claim_C3 (first : Img) (rest : List Img)
    (hh : ∀ g ∈ first :: rest, 16 ≤ g.height) (fm : FontMetrics) :
    (∀ stale : Bool,
      (stackFrame fm stale first rest).width
          = ((first :: rest).map Img.width).foldr max 0
      ∧ (stackFrame fm stale first rest).height
          = ((first :: rest).map fun g => g.height - 16).sum
              + ((first :: rest).length - 1) + 16)
    ∧ (∀ (i : Nat) (hi : i < (first :: rest).length) (dx dy : Nat),
        dx < ((first :: rest).get ⟨i, hi⟩).width →
        dy < ((first :: rest).get ⟨i, hi⟩).height - 16 →
        (composeStack first rest).pixel
            ((stackWidth first rest - ((first :: rest).get ⟨i, hi⟩).width) / 2 + dx)
            (panelTop (first :: rest) i + dy)
          = ((first :: rest).get ⟨i, hi⟩).pixel dx (16 + dy))
    ∧ (∀ dx dy : Nat, dx < first.width → dy < 16 →
        (composeStack first rest).pixel dx (bodyHeight (first :: rest) + dy)
          = first.pixel dx dy) := by
  refine ⟨?_, ?_, ?_⟩
  · intro stale
    constructor
    · rw [stackFrame_width, stackWidth, croppedList_map_width]
    · rw [stackFrame_height, stackHeight, croppedList_map_height]
      simp [croppedList]
  · intro i hi dx dy hdx hdy
    have hi2 : i < (croppedList first rest).length := by
      simpa [croppedList] using hi
    have hget : (croppedList first rest).get ⟨i, hi2⟩
        = cropBody ((first :: rest).get ⟨i, hi⟩) := by
      rw [List.get_eq_getElem, List.get_eq_getElem]
      simp only [croppedList, List.getElem_map]
    have hlen : i < ((first :: rest).map fun g => g.height - 16).length := by
      simpa using hi
    have hsucc := List.sum_take_succ ((first :: rest).map fun g => g.height - 16) i hlen
    have hgetm : ((first :: rest).map fun g => g.height - 16)[i]
        = ((first :: rest).get ⟨i, hi⟩).height - 16 := by
      simp only [List.getElem_map, List.get_eq_getElem]
    have htake : (((first :: rest).map fun g => g.height - 16).take (i + 1)).sum
        ≤ ((first :: rest).map fun g => g.height - 16).sum := by
      conv_rhs =>
        rw [← List.take_append_drop (i + 1) ((first :: rest).map fun g => g.height - 16)]
      rw [List.sum_append]
      exact Nat.le_add_right _ _
    have hy_lt : panelTop (first :: rest) i + dy < bodyHeight (first :: rest) := by
      rw [panelTop, bodyHeight, List.map_take]
      rw [hgetm] at hsucc
      simp only [List.length_cons] at hi ⊢
      omega
    simp only [composeStack]
    rw [composeStack_snd]
    rw [Img.paste_pixel_below _ _ 0 (bodyHeight (first :: rest)) _ _ hy_lt]
    have hpanel := pasteBodies_panel (stackWidth first rest) (croppedList first rest)
      (Img.new (stackWidth first rest) (stackHeight first rest) RGBA.opaqueBlack)
      0 i hi2 dx dy (by rw [hget]; exact hdx) (by rw [hget]; exact hdy)
    rw [hget, cropBody_pixel] at hpanel
    have hys : (0 : Nat) + (((croppedList first rest).take i).map Img.height).sum + i + dy
        = panelTop (first :: rest) i + dy := by
      rw [panelTop, croppedList, ← List.map_take, List.map_map]
      simp only [Nat.zero_add]
      rfl
    rw [hys] at hpanel
    exact hpanel
  · intro dx dy hdx hdy
    simp only [composeStack]
    rw [composeStack_snd]
    have h := Img.paste_pixel_in0
      ((pasteBodies (stackWidth first rest)
        (Img.new (stackWidth first rest) (stackHeight first rest) RGBA.opaqueBlack)
        (croppedList first rest) 0).1)
      (headerBand first) (bodyHeight (first :: rest)) dx dy hdx hdy
    rw [headerBand_pixel] at h
    exact h

/-- A 50×20 panel used by the witnesses. -/
def imgA : Img := Img.new 50 20 RGBA.opaqueBlack

/-- A 60×30 panel used by the witnesses. -/
def imgB : Img := Img.new 60 30 RGBA.opaqueWhite

/-- Fixed font metrics used by the witnesses (an empty glyph mask). -/
def fmW : FontMetrics := ⟨10, 5, fun _ _ => false⟩

/-- Witness for C3: two loops of widths 50 and 60 and heights 20 and 30
stack, for either staleness flag, to a 60 × ((20−16)+(30−16)+1+16) = 60×35
canvas. -/
theorem claim_C3_witness :
    (∀ g ∈ imgA :: [imgB], 16 ≤ g.height)
    ∧ (∀ stale : Bool,
        (stackFrame fmW stale imgA [imgB]).width = 60
        ∧ (stackFrame fmW stale imgA [imgB]).height = 35) := by
  have hh : ∀ g ∈ imgA :: [imgB], 16 ≤ g.height := by
    intro g hg
    rcases List.mem_cons.mp hg with h | h
    · subst h; decide
    · rcases List.mem_cons.mp h with h2 | h2
      · subst h2; decide
      · exact absurd h2 (List.not_mem_nil g)
  refine ⟨hh, fun stale => ?_⟩
  obtain ⟨hw, hht⟩ := (claim_C3 imgA [imgB] hh fmW).1 stale
  constructor
  · rw [hw]; decide
  · rw [hht]; decide

lemma foldr_min_ge (b k : Nat) (l : List Nat) (hb : k ≤ b) (hl : ∀ x ∈ l, k ≤ x) :
    k ≤ l.foldr Nat.min b := by
  induction l with
  | nil => exact hb
  | cons a as ih =>
    rw [List.foldr_cons]
    refine le_min (hl a (by simp)) (ih fun x hx => hl x (by simp [hx]))

lemma minFrameCount_pos (g : GifInput) (gs : List GifInput)
    (hall : ∀ l ∈ g :: gs, 1 ≤ l.frames.length) :
    1 ≤ minFrameCount g gs := by
  rw [minFrameCount]
  refine foldr_min_ge _ _ _ (hall g (by simp)) ?_
  intro x hx
  obtain ⟨l, hl, rfl⟩ := List.mem_map.mp hx
  exact hall l (by simp [hl])

/-- C7: for nonempty inputs that each have at least one frame, the
stacked output loop exists and has exactly `N` frames, `N` the minimum
frame count across the inputs; output frame `i` is built from frame `i`
of every input, so frames beyond index `N − 1` are silently dropped with
no error. -/
theorem claim_C7 (now : Int) (fm : FontMetrics) (g : GifInput) (gs : List GifInput)
    (hall : ∀ l ∈ g :: gs, 1 ≤ l.frames.length) :
    ∃ r : StackOutcome,
      stack_animated_gifs now fm (g :: gs) = some r
      ∧ r.frames.length = minFrameCount g gs
      ∧ r.duration = g.duration.getD 500
      ∧ ∀ i : Nat, i < minFrameCount g gs →
          r.frames.getD i blankImg
            = stackFrame fm (checkOutdated now (g :: gs))
                (g.frames.getD i blankImg) (gs.map fun x => x.frames.getD i blankImg) := by
  have hpos : 1 ≤ minFrameCount g gs := minFrameCount_pos g gs hall
  refine ⟨⟨(List.range (minFrameCount g gs)).map fun i =>
      stackFrame fm (checkOutdated now (g :: gs)) (g.frames.getD i blankImg)
        (gs.map fun x => x.frames.getD i blankImg), g.duration.getD 500⟩, ?_, ?_, rfl, ?_⟩
  · rw [stack_animated_gifs]
    have hne : ((List.range (minFrameCount g gs)).map fun i =>
        stackFrame fm (checkOutdated now (g :: gs)) (g.frames.getD i blankImg)
          (gs.map fun x => x.frames.getD i blankImg)).isEmpty = false := by
      rw [List.isEmpty_eq_false]
      intro hnil
      have := congrArg List.length hnil
      simp at this
      omega
    rw [hne]
    simp
  · simp
  · intro i hi
    rw [List.getD_eq_getElem?_getD, List.getElem?_map, List.getElem?_range hi]
    rfl

/-- Witness inputs for C7: a two-frame loop and a one-frame loop. -/
def gifW1 : GifInput := ⟨[imgA, imgA], Sidecar.missing, none⟩

/-- Second witness input for C7. -/
def gifW2 : GifInput := ⟨[imgB], Sidecar.missing, some 300⟩

/-- Witness for C7: stacking a 2-frame and a 1-frame loop yields a loop
of exactly min(2,1) = 1 frame. -/
theorem claim_C7_witness :
    (∀ l ∈ gifW1 :: [gifW2], 1 ≤ l.frames.length)
    ∧ ∃ r : StackOutcome,
        stack_animated_gifs 0 fmW (gifW1 :: [gifW2]) = some r
        ∧ r.frames.length = minFrameCount gifW1 [gifW2]
        ∧ r.duration = gifW1.duration.getD 500
        ∧ ∀ i : Nat, i < minFrameCount gifW1 [gifW2] →
            r.frames.getD i blankImg
              = stackFrame fmW (checkOutdated 0 (gifW1 :: [gifW2]))
                  (gifW1.frames.getD i blankImg)
                  ([gifW2].map fun x => x.frames.getD i blankImg) := by
  have hall : ∀ l ∈ gifW1 :: [gifW2], 1 ≤ l.frames.length := by
    intro l hl
    rcases List.mem_cons.mp hl with h | h
    · subst h; decide
    · rcases List.mem_cons.mp h with h2 | h2
      · subst h2; decide
      · exact absurd h2 (List.not_mem_nil l)
  exact ⟨hall, claim_C7 0 fmW gifW1 [gifW2] hall⟩

end BomRadar
